import Mathlib

/-
  Verification development for the APA match-up recommendation engine.

  The numeric core of the application (skill-level tables, the five-factor
  win-probability model, the matchup aggregator and the match-state advisor)
  is embedded shallowly below.  JavaScript numbers are modelled as exact
  rationals; JavaScript integers (ids, counters, scores) as Int; nullable
  or optional values as Option; the string-keyed Map used for head-to-head
  lookups as an insertion-ordered association list.  A division whose
  denominator can be zero at a call site (which in JavaScript produces NaN)
  is modelled with an explicit Option result; every other division in the
  source is guarded, and is modelled with exact rational division.
-/

/-- JavaScript Math.round: nearest integer, halves rounded toward positive
infinity. -/
def jsRound (x : ℚ) : Int := Int.floor (x + 1/2)

/-- The idiom Math.round(x * 100) / 100 used throughout the source to round
probabilities and confidences to two decimal places. -/
def round2 (x : ℚ) : ℚ := ((jsRound (x * 100) : ℤ) : ℚ) / 100

/-- JavaScript division that may have a zero denominator: x / 0 is not a
finite number (0 / 0 is NaN), modelled as none. -/
def jsDiv (x y : ℚ) : Option ℚ := if y = 0 then none else some (x / y)

/-! ## Data model (src/data/types.ts) -/

/-- Player record (current-session fields; aggregated history fields are
optional). -/
structure Player where
  id : Int
  memberId : Int
  memberNumber : String
  name : String
  skillLevel : Int
  teamId : Int
  matchesPlayed : Int
  matchesWon : Int
  ppm : ℚ
  pa : ℚ
  winPct : ℚ
  historyMatchesPlayed : Option Int
  historyMatchesWon : Option Int
  historyWinPct : Option ℚ
  historyPpm : Option ℚ
  sessionsPlayed : Option Int
deriving DecidableEq

/-- Per-session stats record for a player. -/
structure PlayerStats where
  playerId : Int
  sessionId : String
  skillLevel : Int
  matchesPlayed : Int
  matchesWon : Int
  gamesPlayed : Int
  gamesWon : Int
  totalPoints : ℚ
  pointsAwarded : ℚ
  ppm : ℚ
  winPct : ℚ
deriving DecidableEq

/-- Cumulative head-to-head record between two players.  Dates are modelled
as integer timestamps. -/
structure HeadToHead where
  playerId : Int
  opponentId : Int
  totalGames : Int
  wins : Int
  losses : Int
  avgPointsScored : ℚ
  avgPointsNeeded : ℚ
  lastPlayed : Int
deriving DecidableEq

/-- Result tri-state of a live game slot. -/
inductive GameOutcome where
  | win
  | loss
  | pending
deriving DecidableEq

/-- One game slot of a live match. -/
structure LiveGame where
  gameNumber : Int
  ourPlayerId : Option Int
  theirPlayerId : Option Int
  result : GameOutcome
  ourPoints : Option ℚ
  theirPoints : Option ℚ
deriving DecidableEq

/-- Live match snapshot (fields the core reads). -/
structure LiveMatch where
  id : String
  opponentTeamId : Int
  games : List LiveGame
  currentGame : Int
  ourScore : Int
  theirScore : Int
deriving DecidableEq

/-- The five factor scores of the win-probability model. -/
structure WinProbabilityFactors where
  skillLevelAdvantage : ℚ
  winPercentageDelta : ℚ
  headToHeadRecord : ℚ
  recentFormTrend : ℚ
  ppmEfficiency : ℚ
deriving DecidableEq

/-- Output of calculateWinProbability. -/
structure WinProbabilityResult where
  probability : ℚ
  factors : WinProbabilityFactors
  confidence : ℚ
  dataPoints : Int
deriving DecidableEq

/-- Output element of the matchup aggregator. -/
structure MatchupRecommendation where
  playerId : Int
  playerName : String
  winProbability : ℚ
  confidence : ℚ
  reasoning : List String
  factors : WinProbabilityFactors
deriving DecidableEq

/-- Input element pairing a player with optional stats (interface
MatchupInput in matchup-calculator.ts). -/
structure MatchupInput where
  player : Player
  stats : Option PlayerStats
  recentStats : Option (List PlayerStats)
deriving DecidableEq

/-- Input element for the opposing side (interface OpponentInput,
structurally identical to MatchupInput). -/
structure OpponentInput where
  player : Player
  stats : Option PlayerStats
  recentStats : Option (List PlayerStats)
deriving DecidableEq

/-- The Map<string, HeadToHead> used for head-to-head lookups, modelled as
an insertion-ordered association list with unique keys. -/
abbrev H2HMap := List (String × HeadToHead)

/-- The template-literal key `${playerId}-${opponentId}`. -/
def h2hKey (playerId opponentId : Int) : String :=
  toString playerId ++ "-" ++ toString opponentId

/-- Map.prototype.get: the value stored at the key, if present. -/
def mapGet (m : H2HMap) (k : String) : Option HeadToHead :=
  (m.find? (fun e => e.1 == k)).map (fun e => e.2)

/-- Map.prototype.set: replace the value in place if the key is present,
otherwise append (JavaScript Maps preserve insertion order). -/
def mapSet (m : H2HMap) (k : String) (v : HeadToHead) : H2HMap :=
  if m.any (fun e => e.1 == k) then
    m.map (fun e => if e.1 == k then (k, v) else e)
  else
    m ++ [(k, v)]

/-! ## Skill-level tables (src/data/skill-levels.ts, appended to the
sync-store source file) -/

/-- Row of the 9-ball skill-level table. -/
structure SkillLevelInfo where
  level : Int
  pointsNeeded : ℚ
  expectedPPM : ℚ
  description : String

/-- Official APA 9-ball point requirements. -/
def NINE_BALL_SKILL_LEVELS : List SkillLevelInfo :=
  [ ⟨1, 14, 10, "Beginner"⟩,
    ⟨2, 19, 14, "Novice"⟩,
    ⟨3, 25, 19, "Intermediate"⟩,
    ⟨4, 31, 24, "Advanced Intermediate"⟩,
    ⟨5, 38, 30, "Skilled"⟩,
    ⟨6, 46, 37, "Advanced"⟩,
    ⟨7, 55, 45, "Expert"⟩,
    ⟨8, 65, 54, "Semi-Pro"⟩,
    ⟨9, 75, 63, "Professional"⟩ ]

/-- Points needed for a skill level; unknown levels default to the SL5
value 38. -/
def getPointsNeeded (skillLevel : Int) : ℚ :=
  match NINE_BALL_SKILL_LEVELS.find? (fun sl => sl.level == skillLevel) with
  | some info => info.pointsNeeded
  | none => 38

/-- Expected points per match for a skill level; unknown levels default
to 30. -/
def getExpectedPPM (skillLevel : Int) : ℚ :=
  match NINE_BALL_SKILL_LEVELS.find? (fun sl => sl.level == skillLevel) with
  | some info => info.expectedPPM
  | none => 30

/-- Base win probability from the handicap system: 0.5 plus a small
per-level consistency bonus plus a race-length adjustment, clamped to
[0.2, 0.8]. -/
def getBaseWinProbability (playerSkillLevel opponentSkillLevel : Int) : ℚ :=
  let playerNeeds := getPointsNeeded playerSkillLevel
  let opponentNeeds := getPointsNeeded opponentSkillLevel
  let baseProbability : ℚ := 0.5
  let skillDiff : ℚ := ((playerSkillLevel - opponentSkillLevel : Int) : ℚ)
  let skillAdjustment := skillDiff * 0.015
  let pointQuot := opponentNeeds / playerNeeds
  let pointAdjustment := (pointQuot - 1) * 0.05
  max 0.2 (min 0.8 (baseProbability + skillAdjustment + pointAdjustment))

/-! ## Win-probability model (src/services/win-probability.ts) -/

/-- The fixed factor weights of the model. -/
structure FactorWeights where
  skillLevelAdvantage : ℚ
  winPercentageDelta : ℚ
  headToHeadRecord : ℚ
  recentFormTrend : ℚ
  ppmEfficiency : ℚ

/-- const WEIGHTS of win-probability.ts. -/
def WEIGHTS : FactorWeights :=
  { skillLevelAdvantage := 0.35,
    winPercentageDelta := 0.25,
    headToHeadRecord := 0.20,
    recentFormTrend := 0.15,
    ppmEfficiency := 0.05 }

/-- Factor 2 of calculateWinProbability (win-percentage delta) together
with its data-point contribution; neutral 0.5 with 0 points unless both
sides have stats with at least one match played. -/
def winPctFactor (playerStats opponentStats : Option PlayerStats) : ℚ × Int :=
  match playerStats, opponentStats with
  | some ps, some os =>
    if ps.matchesPlayed > 0 ∧ os.matchesPlayed > 0 then
      let playerWinRate := ps.winPct / 100
      let opponentWinRate := os.winPct / 100
      let delta := 0.5 + (playerWinRate - opponentWinRate) * 0.5
      (max 0.2 (min 0.8 delta), 2)
    else (0.5, 0)
  | _, _ => (0.5, 0)

/-- Factor 3 of calculateWinProbability (head-to-head record, regressed to
the mean by min(totalGames / 10, 1)) with its data-point contribution. -/
def h2hFactor (headToHead : Option HeadToHead) : ℚ × Int :=
  match headToHead with
  | some h =>
    if h.totalGames > 0 then
      let raw := (h.wins : ℚ) / (h.totalGames : ℚ)
      let regFactor := min ((h.totalGames : ℚ) / 10) 1
      (0.5 + (raw - 0.5) * regFactor, h.totalGames)
    else (0.5, 0)
  | none => (0.5, 0)

/-- Season win rate used by the form factor: playerStats?.winPct is falsy
in JavaScript when the stats are absent or winPct is 0, in which case the
neutral 0.5 is used. -/
def seasonWinRateOf (stats : Option PlayerStats) : ℚ :=
  match stats with
  | some s => if s.winPct = 0 then 0.5 else s.winPct / 100
  | none => 0.5

/-- Factor 4 of calculateWinProbability (recent-form trend) with its
data-point contribution; requires a non-empty recent-stats list for the
player. -/
def formFactor (playerStats opponentStats : Option PlayerStats)
    (recentPlayerStats recentOpponentStats : Option (List PlayerStats)) :
    ℚ × Int :=
  match recentPlayerStats with
  | some rps =>
    if rps.length > 0 then
      let recentWinRate :=
        (rps.foldl (fun sum s => sum + s.winPct) 0) / (rps.length : ℚ) / 100
      let seasonWinRate := seasonWinRateOf playerStats
      let playerTrend := 0.5 + (recentWinRate - seasonWinRate) * 2
      let opponentTrend :=
        match recentOpponentStats with
        | some ros =>
          if ros.length > 0 then
            let oppRecentWinRate :=
              (ros.foldl (fun sum s => sum + s.winPct) 0) / (ros.length : ℚ) / 100
            let oppSeasonWinRate := seasonWinRateOf opponentStats
            0.5 + (oppRecentWinRate - oppSeasonWinRate) * 2
          else (0.5 : ℚ)
        | none => 0.5
      let trend := 0.5 + (playerTrend - opponentTrend) * 0.5
      (max 0.3 (min 0.7 trend), (rps.length : Int))
    else (0.5, 0)
  | none => (0.5, 0)

/-- Factor 5 of calculateWinProbability (PPM efficiency against the
skill-level expectation) with its data-point contribution. -/
def ppmFactor (playerSkillLevel opponentSkillLevel : Int)
    (playerStats opponentStats : Option PlayerStats) : ℚ × Int :=
  match playerStats, opponentStats with
  | some ps, some os =>
    let playerExpectedPPM := getExpectedPPM playerSkillLevel
    let opponentExpectedPPM := getExpectedPPM opponentSkillLevel
    let playerEfficiency := ps.ppm / playerExpectedPPM
    let opponentEfficiency := os.ppm / opponentExpectedPPM
    let eff := 0.5 + (playerEfficiency - opponentEfficiency) * 0.25
    (max 0.3 (min 0.7 eff), 2)
  | _, _ => (0.5, 0)

/-- calculateWinProbability of win-probability.ts: the five factors, the
weighted blend clamped to [0.15, 0.85], the confidence
min(dataPoints / 50, 1) and the data-point count. -/
def calculateWinProbability (player : Player) (playerStats : Option PlayerStats)
    (opponent : Player) (opponentStats : Option PlayerStats)
    (headToHead : Option HeadToHead)
    (recentPlayerStats recentOpponentStats : Option (List PlayerStats)) :
    WinProbabilityResult :=
  let skillLevelAdvantage := getBaseWinProbability player.skillLevel opponent.skillLevel
  let w := winPctFactor playerStats opponentStats
  let h := h2hFactor headToHead
  let f := formFactor playerStats opponentStats recentPlayerStats recentOpponentStats
  let e := ppmFactor player.skillLevel opponent.skillLevel playerStats opponentStats
  let dataPoints : Int := 1 + w.2 + h.2 + f.2 + e.2
  let factors : WinProbabilityFactors :=
    { skillLevelAdvantage := skillLevelAdvantage,
      winPercentageDelta := w.1,
      headToHeadRecord := h.1,
      recentFormTrend := f.1,
      ppmEfficiency := e.1 }
  let probability :=
    WEIGHTS.skillLevelAdvantage * factors.skillLevelAdvantage +
    WEIGHTS.winPercentageDelta * factors.winPercentageDelta +
    WEIGHTS.headToHeadRecord * factors.headToHeadRecord +
    WEIGHTS.recentFormTrend * factors.recentFormTrend +
    WEIGHTS.ppmEfficiency * factors.ppmEfficiency
  let confidence := min ((dataPoints : ℚ) / 50) 1
  { probability := max 0.15 (min 0.85 probability),
    factors := factors,
    confidence := confidence,
    dataPoints := dataPoints }

/-- generateReasoning of win-probability.ts: deterministic justification
strings derived from the factors. -/
def generateReasoning (player opponent : Player)
    (factors : WinProbabilityFactors) (headToHead : Option HeadToHead) :
    List String :=
  let slDiff := player.skillLevel - opponent.skillLevel
  let slP := toString player.skillLevel
  let slO := toString opponent.skillLevel
  let skillReason :=
    if slDiff > 0 then
      [player.name ++ " is a higher skill level (SL" ++ slP ++ " vs SL" ++ slO ++ ")"]
    else if slDiff < 0 then
      [player.name ++ " gets favorable handicap (SL" ++ slP ++ " vs SL" ++ slO ++ ")"]
    else
      ["Even skill level matchup (both SL" ++ slP ++ ")"]
  let winPctReason :=
    if factors.winPercentageDelta > 0.55 then
      [player.name ++ " has a higher win percentage this season"]
    else if factors.winPercentageDelta < 0.45 then
      [opponent.name ++ " has been winning more consistently"]
    else []
  let h2hReason :=
    match headToHead with
    | some h =>
      if h.totalGames > 0 then
        let winRate := jsRound (((h.wins : ℚ) / (h.totalGames : ℚ)) * 100)
        if winRate > 55 then
          [player.name ++ " is " ++ toString h.wins ++ "-" ++ toString h.losses ++
            " against " ++ opponent.name]
        else if winRate < 45 then
          [opponent.name ++ " has won most of their matchups (" ++
            toString h.losses ++ "-" ++ toString h.wins ++ ")"]
        else
          ["Even head-to-head history (" ++ toString h.wins ++ "-" ++
            toString h.losses ++ ")"]
      else []
    | none => []
  let formReason :=
    if factors.recentFormTrend > 0.55 then
      [player.name ++ " has been performing well recently"]
    else if factors.recentFormTrend < 0.45 then
      [player.name ++ " may be in a slump lately"]
    else []
  skillReason ++ winPctReason ++ h2hReason ++ formReason

/-! ## Matchup aggregator (src/services/matchup-calculator.ts) -/

/-- Loop body of getMatchupRecommendations: the recommendation built for
one available player against the fixed opponent. -/
def makeRecommendation (opponent : OpponentInput) (headToHeadData : H2HMap)
    (playerInput : MatchupInput) : MatchupRecommendation :=
  let headToHead := mapGet headToHeadData (h2hKey playerInput.player.id opponent.player.id)
  let result := calculateWinProbability playerInput.player playerInput.stats
    opponent.player opponent.stats headToHead playerInput.recentStats opponent.recentStats
  let reasoning := generateReasoning playerInput.player opponent.player result.factors headToHead
  { playerId := playerInput.player.id,
    playerName := playerInput.player.name,
    winProbability := round2 result.probability,
    confidence := round2 result.confidence,
    reasoning := reasoning,
    factors := result.factors }

/-- One insertion step of the stable descending sort performed by
Array.prototype.sort with comparator (a, b) => b.winProbability -
a.winProbability: the element is placed before the first element whose
winProbability is less than or equal to its own, so that among equal keys
the earlier input element stays first (sort is stable per the ECMAScript
specification). -/
def insertByProbDesc (x : MatchupRecommendation) :
    List MatchupRecommendation → List MatchupRecommendation
  | [] => [x]
  | y :: ys =>
    if y.winProbability ≤ x.winProbability then x :: y :: ys
    else y :: insertByProbDesc x ys

/-- The stable descending-by-winProbability sort of Array.prototype.sort
with comparator (a, b) => b.winProbability - a.winProbability. -/
def sortByProbDesc : List MatchupRecommendation → List MatchupRecommendation
  | [] => []
  | x :: xs => insertByProbDesc x (sortByProbDesc xs)

/-- getMatchupRecommendations: one recommendation per available player,
sorted by win probability (highest first; the last three arguments are
unused in the source). -/
def getMatchupRecommendations (availablePlayers : List MatchupInput)
    (opponent : OpponentInput) (headToHeadData : H2HMap)
    ( _gameNumber _ourScore _theirScore : Int) : List MatchupRecommendation :=
  sortByProbDesc (availablePlayers.map (makeRecommendation opponent headToHeadData))

/-- Loop state of getBestOpener: the best average probability seen so far
(initially 0) and the best recommendation so far (initially null). -/
structure OpenerState where
  bestAvgProbability : ℚ
  bestPlayer : Option MatchupRecommendation

/-- Inner loop body of getBestOpener: accumulate the probability total and
the component-wise factor sums over one opponent. -/
def openerOppStep (playerInput : MatchupInput) (headToHeadData : H2HMap)
    (acc : ℚ × WinProbabilityFactors) (opponent : OpponentInput) :
    ℚ × WinProbabilityFactors :=
  let headToHead := mapGet headToHeadData (h2hKey playerInput.player.id opponent.player.id)
  let result := calculateWinProbability playerInput.player playerInput.stats
    opponent.player opponent.stats headToHead playerInput.recentStats opponent.recentStats
  (acc.1 + result.probability,
   { skillLevelAdvantage := acc.2.skillLevelAdvantage + result.factors.skillLevelAdvantage,
     winPercentageDelta := acc.2.winPercentageDelta + result.factors.winPercentageDelta,
     headToHeadRecord := acc.2.headToHeadRecord + result.factors.headToHeadRecord,
     recentFormTrend := acc.2.recentFormTrend + result.factors.recentFormTrend,
     ppmEfficiency := acc.2.ppmEfficiency + result.factors.ppmEfficiency })

/-- Outer loop body of getBestOpener: average one candidate player across
all opponents and keep them if the average strictly beats the best so
far. -/
def openerStep (opponents : List OpponentInput) (headToHeadData : H2HMap)
    (state : OpenerState) (playerInput : MatchupInput) : OpenerState :=
  let acc := opponents.foldl (openerOppStep playerInput headToHeadData)
    ((0 : ℚ), ⟨0, 0, 0, 0, 0⟩)
  let totalProbability := acc.1
  let avgProbability := totalProbability / (opponents.length : ℚ)
  let numOpponents : ℚ := (opponents.length : ℚ)
  let playerFactors : WinProbabilityFactors :=
    { skillLevelAdvantage := acc.2.skillLevelAdvantage / numOpponents,
      winPercentageDelta := acc.2.winPercentageDelta / numOpponents,
      headToHeadRecord := acc.2.headToHeadRecord / numOpponents,
      recentFormTrend := acc.2.recentFormTrend / numOpponents,
      ppmEfficiency := acc.2.ppmEfficiency / numOpponents }
  if avgProbability > state.bestAvgProbability then
    { bestAvgProbability := avgProbability,
      bestPlayer := some
        { playerId := playerInput.player.id,
          playerName := playerInput.player.name,
          winProbability := round2 avgProbability,
          confidence := 0.7,
          reasoning :=
            [playerInput.player.name ++ " has strong matchups across the board",
             "Average " ++ toString (jsRound (avgProbability * 100)) ++
               "% win probability vs all opponents"],
          factors := playerFactors } }
  else state

/-- getBestOpener: null on an empty player or opponent pool, otherwise the
candidate whose average win probability across all opponents is best. -/
def getBestOpener (availablePlayers : List MatchupInput)
    (opponents : List OpponentInput) (headToHeadData : H2HMap) :
    Option MatchupRecommendation :=
  if availablePlayers.length = 0 ∨ opponents.length = 0 then none
  else
    (availablePlayers.foldl (openerStep opponents headToHeadData)
      { bestAvgProbability := 0, bestPlayer := none }).bestPlayer

/-- The two strategy choices of analyzeThrowFirstAdvantage. -/
inductive ThrowChoice where
  | throw_first
  | defer
deriving DecidableEq

/-- Output of analyzeThrowFirstAdvantage. -/
structure ThrowFirstAnalysis where
  throwFirstScore : ℚ
  deferScore : ℚ
  recommendation : ThrowChoice
  reasoning : List String

/-- The spread `{ player: p.player, stats: p.stats, recentStats:
p.recentStats }` mapping the opposing roster into candidate inputs. -/
def toMatchupInput (p : OpponentInput) : MatchupInput :=
  ⟨p.player, p.stats, p.recentStats⟩

/-- The same spread in the other direction. -/
def toOpponentInput (p : MatchupInput) : OpponentInput :=
  ⟨p.player, p.stats, p.recentStats⟩

/-- The local ourBestOpenerProb of analyzeThrowFirstAdvantage:
ourBestOpener?.winProbability ?? 0.5. -/
def ourBestOpenerProbOf (ourPlayers : List MatchupInput)
    (theirPlayers : List OpponentInput) (headToHeadData : H2HMap) : ℚ :=
  ((getBestOpener ourPlayers theirPlayers headToHeadData).map
    (fun r => r.winProbability)).getD 0.5

/-- The best-opener probability of the opposing side, computed by
analyzeThrowFirstAdvantage with the rosters swapped:
theirBestOpener?.winProbability ?? 0.5. -/
def theirBestOpenerProbOf (ourPlayers : List MatchupInput)
    (theirPlayers : List OpponentInput) (headToHeadData : H2HMap) : ℚ :=
  ((getBestOpener (theirPlayers.map toMatchupInput)
      (ourPlayers.map toOpponentInput) headToHeadData).map
    (fun r => r.winProbability)).getD 0.5

/-- analyzeThrowFirstAdvantage: scores throwing first (0.6 on our best
opener quality plus a 0.4 x 0.5 neutral term) against deferring (0.4 on
avoiding their best opener plus a 0.55 x 0.6 counter-pick term) and
recommends throw_first exactly on a strict comparison. -/
def analyzeThrowFirstAdvantage (ourPlayers : List MatchupInput)
    (theirPlayers : List OpponentInput) (headToHeadData : H2HMap) :
    ThrowFirstAnalysis :=
  let ourBestOpener := getBestOpener ourPlayers theirPlayers headToHeadData
  let ourBestOpenerProb := ourBestOpenerProbOf ourPlayers theirPlayers headToHeadData
  let theirBestOpener := getBestOpener (theirPlayers.map toMatchupInput)
    (ourPlayers.map toOpponentInput) headToHeadData
  let theirBestOpenerThreat := 1 - theirBestOpenerProbOf ourPlayers theirPlayers headToHeadData
  let throwFirstScore := ourBestOpenerProb * 0.6 + 0.4 * 0.5
  let deferScore := (1 - theirBestOpenerThreat) * 0.4 + 0.55 * 0.6
  let openerName := match ourBestOpener with
    | some r => r.playerName
    | none => "undefined"
  let reasoning :=
    if throwFirstScore > deferScore then
      ["Our opener (" ++ openerName ++ ") has strong matchups",
       "Setting the pace early gives us an advantage"] ++
      (if ourBestOpenerProb > 0.55 then
        [openerName ++ " has " ++ toString (jsRound (ourBestOpenerProb * 100)) ++
          "% average win probability"]
      else [])
    else
      ["Deferring lets us counter-pick their choice",
       "We can optimize each matchup reactively"] ++
      (match theirBestOpener with
       | some tb =>
         if tb.winProbability > 0.55 then
           ["This avoids letting them exploit their best matchups"]
         else []
       | none => [])
  { throwFirstScore := round2 throwFirstScore,
    deferScore := round2 deferScore,
    recommendation :=
      if throwFirstScore > deferScore then ThrowChoice.throw_first
      else ThrowChoice.defer,
    reasoning := reasoning }

/-- The recursive factorial helper of matchup-calculator.ts (returns 1 for
n <= 1). -/
def jsFactorial : Nat → ℚ
  | 0 => 1
  | m + 1 => if m + 1 ≤ 1 then 1 else ((m + 1 : Nat) : ℚ) * jsFactorial m

/-- binomialProbability of matchup-calculator.ts (call sites always have
k <= n). -/
def binomialProbability (n k : Nat) (p : ℚ) : ℚ :=
  let coefficient := jsFactorial n / (jsFactorial k * jsFactorial (n - k))
  coefficient * p ^ k * (1 - p) ^ (n - k)

/-- calculateMatchWinProbability: short-circuits when a side has reached 3
wins, otherwise averages the win probability over the cross product of the
remaining players (0.5 when there are no matchups) and sums binomial tail
probabilities over min(remaining, remaining) trials, clamped to
[0.05, 0.95]. -/
def calculateMatchWinProbability (ourScore theirScore : Int)
    (ourRemainingPlayers : List MatchupInput)
    (theirRemainingPlayers : List OpponentInput)
    (headToHeadData : H2HMap) : ℚ :=
  let gamesNeededToWin : Int := 3
  let ourGamesNeeded := gamesNeededToWin - ourScore
  let theirGamesNeeded := gamesNeededToWin - theirScore
  if ourGamesNeeded ≤ 0 then 1
  else if theirGamesNeeded ≤ 0 then 0
  else
    let acc := ourRemainingPlayers.foldl (fun acc ourPlayer =>
      theirRemainingPlayers.foldl (fun a theirPlayer =>
        let headToHead := mapGet headToHeadData
          (h2hKey ourPlayer.player.id theirPlayer.player.id)
        let result := calculateWinProbability ourPlayer.player ourPlayer.stats
          theirPlayer.player theirPlayer.stats headToHead none none
        (a.1 + result.probability, a.2 + 1)) acc) ((0 : ℚ), (0 : Int))
    let totalProb := acc.1
    let matchups := acc.2
    let avgWinProb := if matchups > 0 then totalProb / (matchups : ℚ) else 0.5
    let gamesRemaining := min ourRemainingPlayers.length theirRemainingPlayers.length
    let matchWinProb := (Finset.Icc ourGamesNeeded (gamesRemaining : Int)).sum
      (fun wins => binomialProbability gamesRemaining wins.toNat avgWinProb)
    max 0.05 (min 0.95 matchWinProb)

/-! ## Match-state advisor (src/services/match-advisor.ts) -/

/-- Recommendation element of getThrowRecommendation; winProbability is an
Option because the blind path divides by the opponent count, which in
JavaScript produces NaN (modelled as none) when that count is zero. -/
structure ThrowRecommendation where
  playerId : Int
  playerName : String
  winProbability : Option ℚ
  confidence : ℚ
  reasoning : List String
  factors : WinProbabilityFactors
deriving DecidableEq

/-- Injects a numeric recommendation of getMatchupRecommendations. -/
def toThrowRecommendation (r : MatchupRecommendation) : ThrowRecommendation :=
  ⟨r.playerId, r.playerName, some r.winProbability, r.confidence,
   r.reasoning, r.factors⟩

/-- Key comparison of the blind-path sort.  A NaN comparator result is
treated as 0 by Array.prototype.sort, so two NaN keys keep their input
order; the two call-site lists never mix finite and non-finite keys. -/
def throwLe (a b : Option ℚ) : Bool :=
  match a, b with
  | some x, some y => decide (x ≤ y)
  | _, _ => true

/-- Stable descending insertion for the blind-path sort. -/
def insertThrowByProbDesc (x : ThrowRecommendation) :
    List ThrowRecommendation → List ThrowRecommendation
  | [] => [x]
  | y :: ys =>
    if throwLe y.winProbability x.winProbability then x :: y :: ys
    else y :: insertThrowByProbDesc x ys

/-- The blind-path Array.prototype.sort with comparator
(a, b) => b.winProbability - a.winProbability. -/
def sortThrowByProbDesc : List ThrowRecommendation → List ThrowRecommendation
  | [] => []
  | x :: xs => insertThrowByProbDesc x (sortThrowByProbDesc xs)

/-- Blind-path loop body of getThrowRecommendation: one candidate player
averaged across every available opponent.  The division by the opponent
count is unguarded in the source. -/
def blindThrowRec (opponentPlayers : List OpponentInput)
    (headToHeadData : H2HMap) (liveMatch : LiveMatch)
    (playerInput : MatchupInput) : ThrowRecommendation :=
  let totalProb : ℚ := opponentPlayers.foldl (fun acc opponent =>
    let matchups := getMatchupRecommendations [playerInput] opponent
      headToHeadData liveMatch.currentGame liveMatch.ourScore
      liveMatch.theirScore
    match matchups with
    | m :: _ => acc + m.winProbability
    | [] => acc) 0
  let avgProb := jsDiv totalProb ((opponentPlayers.length : Nat) : ℚ)
  let avgPct := match avgProb with
    | some v => toString (jsRound (v * 100))
    | none => "NaN"
  { playerId := playerInput.player.id,
    playerName := playerInput.player.name,
    winProbability := avgProb.map round2,
    confidence := 0.65,
    reasoning :=
      [playerInput.player.name ++ " averages " ++ avgPct ++ "% win probability",
       "Strong across multiple opponent matchups"],
    factors := ⟨0.5, 0.5, 0.5, 0.5, 0.5⟩ }

/-- getThrowRecommendation: counter-pick ranking when the opposing pick is
known; otherwise the blind path averages each candidate across every
available opponent (an unguarded division by the opponent count). -/
def getThrowRecommendation (availablePlayers : List MatchupInput)
    (opponentPlayers : List OpponentInput) (headToHeadData : H2HMap)
    (liveMatch : LiveMatch) (theirCurrentPlayer : Option OpponentInput) :
    List ThrowRecommendation :=
  match theirCurrentPlayer with
  | some tcp =>
    (getMatchupRecommendations availablePlayers tcp headToHeadData
      liveMatch.currentGame liveMatch.ourScore liveMatch.theirScore).map
      toThrowRecommendation
  | none =>
    let recommendations :=
      availablePlayers.map (blindThrowRec opponentPlayers headToHeadData liveMatch)
    sortThrowByProbDesc recommendations

/-- getAvailablePlayers: present players whose id is not assigned as
ourPlayerId in any game slot. -/
def getAvailablePlayers (presentPlayers : List Player)
    (liveMatch : LiveMatch) : List Player :=
  let playedPlayerIds :=
    (liveMatch.games.filter (fun g => g.ourPlayerId.isSome)).filterMap
      (fun g => g.ourPlayerId)
  presentPlayers.filter (fun p => ! playedPlayerIds.contains p.id)

/-! ## Head-to-head accumulation (src/utils/stats.ts and the sync store) -/

/-- Element of the gameResults argument of buildHeadToHeadRecords. -/
structure GameResultInput where
  playerId : Int
  opponentId : Int
  won : Bool
  pointsScored : ℚ
  pointsNeeded : ℚ
  playedAt : Int

/-- The per-game update of buildHeadToHeadRecords: increment the total,
one of wins/losses, the running point averages, and the last-played
date. -/
def h2hStep (h2h : HeadToHead) (game : GameResultInput) : HeadToHead :=
  let totalGames := h2h.totalGames + 1
  let wins := if game.won then h2h.wins + 1 else h2h.wins
  let losses := if game.won then h2h.losses else h2h.losses + 1
  let avgPointsScored :=
    (h2h.avgPointsScored * ((totalGames : ℚ) - 1) + game.pointsScored) / (totalGames : ℚ)
  let avgPointsNeeded :=
    (h2h.avgPointsNeeded * ((totalGames : ℚ) - 1) + game.pointsNeeded) / (totalGames : ℚ)
  let lastPlayed := if game.playedAt > h2h.lastPlayed then game.playedAt else h2h.lastPlayed
  { h2h with
    totalGames := totalGames,
    wins := wins,
    losses := losses,
    avgPointsScored := avgPointsScored,
    avgPointsNeeded := avgPointsNeeded,
    lastPlayed := lastPlayed }

/-- The zero-initialised record created when a key is first seen. -/
def freshH2H (game : GameResultInput) : HeadToHead :=
  { playerId := game.playerId, opponentId := game.opponentId, totalGames := 0,
    wins := 0, losses := 0, avgPointsScored := 0, avgPointsNeeded := 0,
    lastPlayed := game.playedAt }

/-- buildHeadToHeadRecords: fold the games into the keyed map (updating in
place or appending a freshly initialised record) and return the values in
insertion order. -/
def buildHeadToHeadRecords (gameResults : List GameResultInput) : List HeadToHead :=
  let h2hMap := gameResults.foldl (fun m game =>
    let key := h2hKey game.playerId game.opponentId
    let h2h := (mapGet m key).getD (freshH2H game)
    mapSet m key (h2hStep h2h game)) []
  h2hMap.map (fun e => e.2)

/-- Element of a fetched player match history consumed by the sync-time
accumulation (sync-store.ts, step 5 of syncAll). -/
structure MatchHistoryItem where
  opponentId : Int
  won : Bool
  pointsAwarded : ℚ
  pointsNeeded : ℚ
  datePlayed : Int

/-- One iteration of the sync-time head-to-head accumulation in syncAll:
update the existing record in place, or insert a record initialised from
the first game. -/
def syncH2HStep (m : H2HMap) (rec : Int × MatchHistoryItem) : H2HMap :=
  let playerId := rec.1
  let item := rec.2
  let key := h2hKey playerId item.opponentId
  match mapGet m key with
  | some existing =>
    let totalGames := existing.totalGames + 1
    let wins := if item.won then existing.wins + 1 else existing.wins
    let losses := if item.won then existing.losses else existing.losses + 1
    let avgPointsScored :=
      (existing.avgPointsScored * ((totalGames : ℚ) - 1) + item.pointsAwarded) / (totalGames : ℚ)
    let avgPointsNeeded :=
      (existing.avgPointsNeeded * ((totalGames : ℚ) - 1) + item.pointsNeeded) / (totalGames : ℚ)
    let lastPlayed := if item.datePlayed > existing.lastPlayed then item.datePlayed
      else existing.lastPlayed
    mapSet m key ({ existing with
      totalGames := totalGames,
      wins := wins,
      losses := losses,
      avgPointsScored := avgPointsScored,
      avgPointsNeeded := avgPointsNeeded,
      lastPlayed := lastPlayed })
  | none =>
    mapSet m key
      ({ playerId := playerId, opponentId := item.opponentId, totalGames := 1,
         wins := if item.won then 1 else 0,
         losses := if item.won then 0 else 1,
         avgPointsScored := item.pointsAwarded,
         avgPointsNeeded := item.pointsNeeded,
         lastPlayed := item.datePlayed })

/-- The sync-time head-to-head accumulation over the flattened list of
(playerId, match-history item) pairs, in fetch order. -/
def syncAccumulateH2H (records : List (Int × MatchHistoryItem)) : H2HMap :=
  records.foldl syncH2HStep []

/-! ## Sample inputs used by concrete instantiations -/

/-- A high-skill sample player. -/
def playerA : Player :=
  { id := 1, memberId := 0, memberNumber := "", name := "A", skillLevel := 100,
    teamId := 0, matchesPlayed := 0, matchesWon := 0, ppm := 0, pa := 0,
    winPct := 0, historyMatchesPlayed := none, historyMatchesWon := none,
    historyWinPct := none, historyPpm := none, sessionsPlayed := none }

/-- A low-skill sample player. -/
def playerB : Player :=
  { id := 2, memberId := 0, memberNumber := "", name := "B", skillLevel := 1,
    teamId := 0, matchesPlayed := 0, matchesWon := 0, ppm := 0, pa := 0,
    winPct := 0, historyMatchesPlayed := none, historyMatchesWon := none,
    historyWinPct := none, historyPpm := none, sessionsPlayed := none }

/-- An equal-skill sample player. -/
def playerC : Player :=
  { id := 3, memberId := 0, memberNumber := "", name := "C", skillLevel := 5,
    teamId := 0, matchesPlayed := 0, matchesWon := 0, ppm := 0, pa := 0,
    winPct := 0, historyMatchesPlayed := none, historyMatchesWon := none,
    historyWinPct := none, historyPpm := none, sessionsPlayed := none }

/-- Another equal-skill sample player. -/
def playerD : Player :=
  { id := 4, memberId := 0, memberNumber := "", name := "D", skillLevel := 5,
    teamId := 0, matchesPlayed := 0, matchesWon := 0, ppm := 0, pa := 0,
    winPct := 0, historyMatchesPlayed := none, historyMatchesWon := none,
    historyWinPct := none, historyPpm := none, sessionsPlayed := none }

/-- Season stats of playerA: undefeated with ppm 24. -/
def statsA : PlayerStats :=
  { playerId := 1, sessionId := "", skillLevel := 100, matchesPlayed := 10,
    matchesWon := 10, gamesPlayed := 0, gamesWon := 0, totalPoints := 0,
    pointsAwarded := 0, ppm := 24, winPct := 100 }

/-- Season stats of playerB: winless with ppm 0. -/
def statsB : PlayerStats :=
  { playerId := 2, sessionId := "", skillLevel := 1, matchesPlayed := 10,
    matchesWon := 0, gamesPlayed := 0, gamesWon := 0, totalPoints := 0,
    pointsAwarded := 0, ppm := 0, winPct := 0 }

/-- A recent-period stats record for playerA with win percentage 320/3. -/
def recentA : PlayerStats :=
  { playerId := 1, sessionId := "", skillLevel := 100, matchesPlayed := 3,
    matchesWon := 3, gamesPlayed := 0, gamesWon := 0, totalPoints := 0,
    pointsAwarded := 0, ppm := 24, winPct := 320/3 }

/-- Head-to-head record of playerA against playerB: 10 wins in 10 games. -/
def h2hAB : HeadToHead := ⟨1, 2, 10, 10, 0, 0, 0, 0⟩

/-- Head-to-head record of playerB against playerA: 2 wins in 5 games. -/
def h2hBA : HeadToHead := ⟨2, 1, 5, 2, 3, 0, 0, 0⟩

/-- A 1-win/0-loss head-to-head record. -/
def h2hOneGame : HeadToHead := ⟨1, 2, 1, 1, 0, 0, 0, 0⟩

/-- A 9-win/1-loss head-to-head record. -/
def h2hTenGames : HeadToHead := ⟨1, 2, 10, 9, 1, 0, 0, 0⟩

/-- Head-to-head map holding both directions between playerA and
playerB. -/
def c4Map : H2HMap := [("1-2", h2hAB), ("2-1", h2hBA)]

/-- Our one-player roster for the throw-first scenario. -/
def c4Ours : List MatchupInput := [⟨playerA, some statsA, some [recentA]⟩]

/-- Their one-player roster for the throw-first scenario. -/
def c4Theirs : List OpponentInput := [⟨playerB, some statsB, none⟩]

/-- A live match whose only game slot has a player assigned but is still
pending. -/
def pendingAssignedMatch : LiveMatch :=
  { id := "m", opponentTeamId := 0,
    games := [⟨1, some 1, none, GameOutcome.pending, none, none⟩],
    currentGame := 1, ourScore := 0, theirScore := 0 }

/-- An empty live match snapshot. -/
def emptyLiveMatch : LiveMatch :=
  { id := "m", opponentTeamId := 0, games := [], currentGame := 1,
    ourScore := 0, theirScore := 0 }

/-- A single game result between players 1 and 2. -/
def c9Games : List GameResultInput := [⟨1, 2, true, 0, 0, 5⟩]

/-- The head-to-head record buildHeadToHeadRecords produces from
c9Games. -/
def c9Rec : HeadToHead := ⟨1, 2, 1, 1, 0, 0, 0, 5⟩

/-- A single sync-time match-history record for player 1. -/
def c9SyncRecords : List (Int × MatchHistoryItem) := [(1, ⟨2, false, 0, 0, 5⟩)]

/-- The head-to-head record the sync accumulation produces from
c9SyncRecords. -/
def c9SyncRec : HeadToHead := ⟨1, 2, 1, 0, 1, 0, 0, 5⟩

/-! ## Helper lemmas -/

/-- Every row of the skill table has positive pointsNeeded, and so does the
default, so the lookup is always positive. -/
theorem getPointsNeeded_pos (s : Int) : 0 < getPointsNeeded s := by
  unfold getPointsNeeded
  cases h : NINE_BALL_SKILL_LEVELS.find? (fun sl => sl.level == s) with
  | none => norm_num
  | some info =>
    have hm : info ∈ NINE_BALL_SKILL_LEVELS := List.mem_of_find?_eq_some h
    simp only [NINE_BALL_SKILL_LEVELS, List.mem_cons, List.not_mem_nil,
      or_false] at hm
    rcases hm with h1 | h1 | h1 | h1 | h1 | h1 | h1 | h1 | h1 <;>
      rw [h1] <;> norm_num

/-- Equal skill levels produce the neutral 0.5 base probability. -/
theorem getBaseWinProbability_self (s : Int) : getBaseWinProbability s s = 0.5 := by
  have hp : getPointsNeeded s ≠ 0 := (getPointsNeeded_pos s).ne'
  simp only [getBaseWinProbability, sub_self, Int.cast_zero, zero_mul, zero_add,
    div_self hp]
  norm_num [max_def, min_def]

/-- The returned probability is the weighted blend clamped to
[0.15, 0.85]. -/
theorem winProbability_mem_range (player : Player)
    (playerStats : Option PlayerStats) (opponent : Player)
    (opponentStats : Option PlayerStats) (headToHead : Option HeadToHead)
    (recentPlayerStats recentOpponentStats : Option (List PlayerStats)) :
    0.15 ≤ (calculateWinProbability player playerStats opponent opponentStats
      headToHead recentPlayerStats recentOpponentStats).probability ∧
    (calculateWinProbability player playerStats opponent opponentStats
      headToHead recentPlayerStats recentOpponentStats).probability ≤ 0.85 := by
  simp only [calculateWinProbability]
  exact ⟨le_max_left _ _, max_le (by norm_num) (min_le_left _ _)⟩

/-- The head-to-head component of the result is computed by h2hFactor. -/
theorem calculateWinProbability_h2h_factor (player : Player)
    (playerStats : Option PlayerStats) (opponent : Player)
    (opponentStats : Option PlayerStats) (headToHead : Option HeadToHead)
    (recentPlayerStats recentOpponentStats : Option (List PlayerStats)) :
    (calculateWinProbability player playerStats opponent opponentStats
      headToHead recentPlayerStats recentOpponentStats).factors.headToHeadRecord =
      (h2hFactor headToHead).1 := rfl

/-- Closed form of the head-to-head factor for a record with at least one
game. -/
theorem h2hFactor_of_pos (h : HeadToHead) (ht : 0 < h.totalGames) :
    (h2hFactor (some h)).1 =
      0.5 + ((h.wins : ℚ) / (h.totalGames : ℚ) - 0.5) *
        min ((h.totalGames : ℚ) / 10) 1 := by
  simp only [h2hFactor]
  rw [if_pos ht]

/-! ## Claim theorems -/

/-- C3: for every combination of player, opponent, optional current-period
stats, optional head-to-head record, and optional recent-stats lists, the
probability returned by calculateWinProbability lies within
[0.15, 0.85]. -/
theorem C3_probability_clamped (player : Player)
    (playerStats : Option PlayerStats) (opponent : Player)
    (opponentStats : Option PlayerStats) (headToHead : Option HeadToHead)
    (recentPlayerStats recentOpponentStats : Option (List PlayerStats)) :
    0.15 ≤ (calculateWinProbability player playerStats opponent opponentStats
      headToHead recentPlayerStats recentOpponentStats).probability ∧
    (calculateWinProbability player playerStats opponent opponentStats
      headToHead recentPlayerStats recentOpponentStats).probability ≤ 0.85 :=
  winProbability_mem_range player playerStats opponent opponentStats headToHead
    recentPlayerStats recentOpponentStats

/-- C2 counterexample: at ourScore = 3 and theirScore = 3 the function
returns 1, not 0, although theirScore >= 3, so the claim as stated fails
at this input. -/
theorem C2_counterexample :
    calculateMatchWinProbability 3 3 [] [] [] = 1 ∧
    calculateMatchWinProbability 3 3 [] [] [] ≠ 0 := by
  constructor <;> norm_num [calculateMatchWinProbability]

/-- C2 (amended): calculateMatchWinProbability returns exactly 1 when
ourScore >= 3, and exactly 0 when theirScore >= 3 and ourScore < 3 (the
ourScore check is performed first), regardless of the remaining players. -/
theorem C2_short_circuit (ourScore theirScore : Int)
    (ourRemainingPlayers : List MatchupInput)
    (theirRemainingPlayers : List OpponentInput) (headToHeadData : H2HMap) :
    (3 ≤ ourScore →
      calculateMatchWinProbability ourScore theirScore ourRemainingPlayers
        theirRemainingPlayers headToHeadData = 1) ∧
    (3 ≤ theirScore → ourScore < 3 →
      calculateMatchWinProbability ourScore theirScore ourRemainingPlayers
        theirRemainingPlayers headToHeadData = 0) := by
  constructor
  · intro h
    simp only [calculateMatchWinProbability]
    rw [if_pos (by omega : (3 : Int) - ourScore ≤ 0)]
  · intro h1 h2
    simp only [calculateMatchWinProbability]
    rw [if_neg (by omega : ¬(3 : Int) - ourScore ≤ 0),
      if_pos (by omega : (3 : Int) - theirScore ≤ 0)]

/-- C2 witness: the short-circuits at concrete scores 5-0 and 0-3. -/
theorem C2_short_circuit_witness :
    calculateMatchWinProbability 5 0 [] [] [] = 1 ∧
    calculateMatchWinProbability 0 3 [] [] [] = 0 :=
  ⟨(C2_short_circuit 5 0 [] [] []).1 (by norm_num),
   (C2_short_circuit 0 3 [] [] []).2 (by norm_num) (by norm_num)⟩

/-- C7: for a head-to-head record with totalGames > 0 the factor equals
0.5 + (wins/totalGames - 0.5) * min(totalGames/10, 1); a 1-win/0-loss
record yields a factor strictly between 0.5 and 1 that is strictly closer
to 0.5 than the factor of a 9-win/1-loss record over 10 games. -/
theorem C7_h2h_regression (player : Player) (playerStats : Option PlayerStats)
    (opponent : Player) (opponentStats : Option PlayerStats)
    (recentPlayerStats recentOpponentStats : Option (List PlayerStats))
    (h h1 h2 : HeadToHead) (hpos : 0 < h.totalGames)
    (hw1 : h1.wins = 1) (ht1 : h1.totalGames = 1)
    (hw2 : h2.wins = 9) (ht2 : h2.totalGames = 10) :
    (calculateWinProbability player playerStats opponent opponentStats (some h)
        recentPlayerStats recentOpponentStats).factors.headToHeadRecord =
      0.5 + ((h.wins : ℚ) / (h.totalGames : ℚ) - 0.5) *
        min ((h.totalGames : ℚ) / 10) 1 ∧
    0.5 < (calculateWinProbability player playerStats opponent opponentStats
        (some h1) recentPlayerStats recentOpponentStats).factors.headToHeadRecord ∧
    (calculateWinProbability player playerStats opponent opponentStats
        (some h1) recentPlayerStats recentOpponentStats).factors.headToHeadRecord < 1 ∧
    |(calculateWinProbability player playerStats opponent opponentStats
        (some h1) recentPlayerStats recentOpponentStats).factors.headToHeadRecord - 0.5| <
      |(calculateWinProbability player playerStats opponent opponentStats
        (some h2) recentPlayerStats recentOpponentStats).factors.headToHeadRecord - 0.5| := by
  have e : ∀ hh : HeadToHead, 0 < hh.totalGames →
      (calculateWinProbability player playerStats opponent opponentStats
        (some hh) recentPlayerStats recentOpponentStats).factors.headToHeadRecord =
      0.5 + ((hh.wins : ℚ) / (hh.totalGames : ℚ) - 0.5) *
        min ((hh.totalGames : ℚ) / 10) 1 := fun hh hp => by
    rw [calculateWinProbability_h2h_factor, h2hFactor_of_pos hh hp]
  have e1 := e h1 (by omega)
  have e2 := e h2 (by omega)
  rw [hw1, ht1] at e1
  rw [hw2, ht2] at e2
  norm_num [min_def] at e1 e2
  refine ⟨e h hpos, ?_, ?_, ?_⟩
  · rw [e1]; norm_num
  · rw [e1]; norm_num
  · rw [e1, e2]
    rw [abs_of_nonneg (by norm_num), abs_of_nonneg (by norm_num)]
    norm_num

/-- C7 witness: the regression comparison at concrete 1-0 and 9-1
records. -/
theorem C7_h2h_regression_witness :
    (calculateWinProbability playerA none playerB none (some h2hOneGame)
        none none).factors.headToHeadRecord =
      0.5 + ((h2hOneGame.wins : ℚ) / (h2hOneGame.totalGames : ℚ) - 0.5) *
        min ((h2hOneGame.totalGames : ℚ) / 10) 1 ∧
    0.5 < (calculateWinProbability playerA none playerB none (some h2hOneGame)
        none none).factors.headToHeadRecord ∧
    (calculateWinProbability playerA none playerB none (some h2hOneGame)
        none none).factors.headToHeadRecord < 1 ∧
    |(calculateWinProbability playerA none playerB none (some h2hOneGame)
        none none).factors.headToHeadRecord - 0.5| <
      |(calculateWinProbability playerA none playerB none (some h2hTenGames)
        none none).factors.headToHeadRecord - 0.5| :=
  C7_h2h_regression playerA none playerB none none none h2hOneGame h2hOneGame
    h2hTenGames (by decide) rfl rfl rfl rfl

/-- C8: with equal skill levels and no optional data every factor is 0.5,
the weighted blend is exactly 0.5 before the clamp, the returned
probability is 0.5, and only the single skill data point is counted. -/
theorem C8_neutral_equal_skill (player opponent : Player)
    (h : player.skillLevel = opponent.skillLevel) :
    (calculateWinProbability player none opponent none none none none).factors =
      ⟨0.5, 0.5, 0.5, 0.5, 0.5⟩ ∧
    WEIGHTS.skillLevelAdvantage *
        (calculateWinProbability player none opponent none none none none).factors.skillLevelAdvantage +
      WEIGHTS.winPercentageDelta *
        (calculateWinProbability player none opponent none none none none).factors.winPercentageDelta +
      WEIGHTS.headToHeadRecord *
        (calculateWinProbability player none opponent none none none none).factors.headToHeadRecord +
      WEIGHTS.recentFormTrend *
        (calculateWinProbability player none opponent none none none none).factors.recentFormTrend +
      WEIGHTS.ppmEfficiency *
        (calculateWinProbability player none opponent none none none none).factors.ppmEfficiency = 0.5 ∧
    (calculateWinProbability player none opponent none none none none).probability = 0.5 ∧
    (calculateWinProbability player none opponent none none none none).dataPoints = 1 := by
  have hb : getBaseWinProbability player.skillLevel opponent.skillLevel = 0.5 := by
    rw [h, getBaseWinProbability_self]
  refine ⟨?_, ?_, ?_, ?_⟩ <;>
    simp [calculateWinProbability, winPctFactor, h2hFactor, formFactor,
      ppmFactor, hb, WEIGHTS] <;>
    norm_num [max_def, min_def]

/-- C8 witness: the neutral outcome for two concrete skill-5 players with
no optional data. -/
theorem C8_neutral_equal_skill_witness :
    (calculateWinProbability playerC none playerD none none none none).factors =
      ⟨0.5, 0.5, 0.5, 0.5, 0.5⟩ ∧
    WEIGHTS.skillLevelAdvantage *
        (calculateWinProbability playerC none playerD none none none none).factors.skillLevelAdvantage +
      WEIGHTS.winPercentageDelta *
        (calculateWinProbability playerC none playerD none none none none).factors.winPercentageDelta +
      WEIGHTS.headToHeadRecord *
        (calculateWinProbability playerC none playerD none none none none).factors.headToHeadRecord +
      WEIGHTS.recentFormTrend *
        (calculateWinProbability playerC none playerD none none none none).factors.recentFormTrend +
      WEIGHTS.ppmEfficiency *
        (calculateWinProbability playerC none playerD none none none none).factors.ppmEfficiency = 0.5 ∧
    (calculateWinProbability playerC none playerD none none none none).probability = 0.5 ∧
    (calculateWinProbability playerC none playerD none none none none).dataPoints = 1 :=
  C8_neutral_equal_skill playerC playerD rfl

/-- Folding the opponents adds at least 0.15 per opponent to the running
probability total. -/
theorem openerOppStep_total_lb (playerInput : MatchupInput)
    (headToHeadData : H2HMap) (opponents : List OpponentInput) :
    ∀ acc : ℚ × WinProbabilityFactors,
      acc.1 + 0.15 * (opponents.length : ℚ) ≤
        (opponents.foldl (openerOppStep playerInput headToHeadData) acc).1 := by
  induction opponents with
  | nil => intro acc; simp
  | cons o os ih =>
    intro acc
    rw [List.foldl_cons]
    refine le_trans ?_ (ih (openerOppStep playerInput headToHeadData acc o))
    have hstep : (openerOppStep playerInput headToHeadData acc o).1 =
        acc.1 + (calculateWinProbability playerInput.player playerInput.stats
          o.player o.stats
          (mapGet headToHeadData (h2hKey playerInput.player.id o.player.id))
          playerInput.recentStats o.recentStats).probability := rfl
    rw [hstep]
    have h15 := (winProbability_mem_range playerInput.player playerInput.stats
      o.player o.stats
      (mapGet headToHeadData (h2hKey playerInput.player.id o.player.id))
      playerInput.recentStats o.recentStats).1
    push_cast [List.length_cons]
    linarith

/-- openerStep never discards an already-found best player. -/
theorem openerStep_isSome_of (opponents : List OpponentInput)
    (headToHeadData : H2HMap) (state : OpenerState) (playerInput : MatchupInput)
    (h : state.bestPlayer.isSome) :
    ((openerStep opponents headToHeadData state playerInput).bestPlayer).isSome := by
  simp only [openerStep]
  split
  · rfl
  · exact h

/-- With a non-empty opponent list, the first candidate beats the initial
best-so-far of 0 (its average probability is at least 0.15), so a best
player is recorded. -/
theorem openerStep_first_isSome (opponents : List OpponentInput)
    (headToHeadData : H2HMap) (playerInput : MatchupInput)
    (hops : opponents ≠ []) :
    ((openerStep opponents headToHeadData ⟨0, none⟩ playerInput).bestPlayer).isSome := by
  simp only [openerStep]
  split
  · rfl
  · next hc =>
    exfalso
    apply hc
    have hlen : 0 < (opponents.length : ℚ) := by
      exact_mod_cast List.length_pos.mpr hops
    have htot := openerOppStep_total_lb playerInput headToHeadData opponents
      (0, ⟨0, 0, 0, 0, 0⟩)
    refine div_pos ?_ hlen
    calc (0 : ℚ) < 0.15 * (opponents.length : ℚ) := by positivity
      _ ≤ _ := by simpa using htot

/-- Once a best player is recorded, the remaining fold keeps one. -/
theorem foldl_openerStep_isSome (opponents : List OpponentInput)
    (headToHeadData : H2HMap) (players : List MatchupInput) :
    ∀ s : OpenerState, s.bestPlayer.isSome →
      ((players.foldl (openerStep opponents headToHeadData) s).bestPlayer).isSome := by
  induction players with
  | nil => intro s h; exact h
  | cons p ps ih =>
    intro s h
    rw [List.foldl_cons]
    exact ih _ (openerStep_isSome_of _ _ _ _ h)

/-- C10: getBestOpener returns null exactly when one of the two pools is
empty; with both pools non-empty the first candidate already exceeds the
initial 0 threshold because every computed probability is at least
0.15. -/
theorem C10_best_opener_none_iff (availablePlayers : List MatchupInput)
    (opponents : List OpponentInput) (headToHeadData : H2HMap) :
    getBestOpener availablePlayers opponents headToHeadData = none ↔
      availablePlayers = [] ∨ opponents = [] := by
  constructor
  · intro h
    by_contra hne
    push_neg at hne
    obtain ⟨ha, ho⟩ := hne
    have hsome : ((availablePlayers.foldl (openerStep opponents headToHeadData)
        ⟨0, none⟩).bestPlayer).isSome := by
      cases availablePlayers with
      | nil => exact absurd rfl ha
      | cons p ps =>
        rw [List.foldl_cons]
        exact foldl_openerStep_isSome _ _ ps _
          (openerStep_first_isSome _ _ _ ho)
    unfold getBestOpener at h
    rw [if_neg] at h
    · rw [h] at hsome
      simp at hsome
    · push_neg
      exact ⟨fun hl => ha (List.length_eq_zero.mp hl),
             fun hl => ho (List.length_eq_zero.mp hl)⟩
  · intro h
    rcases h with h | h <;> subst h <;> simp [getBestOpener]

/-- C10 witness: both directions at the empty pools. -/
theorem C10_best_opener_none_iff_witness :
    getBestOpener [] [] [] = none ↔
      ([] : List MatchupInput) = [] ∨ ([] : List OpponentInput) = [] :=
  C10_best_opener_none_iff [] [] []

/-- An element of an insertion is the inserted element or an element of
the original list. -/
theorem insertByProbDesc_mem (x : MatchupRecommendation)
    (l : List MatchupRecommendation) (z : MatchupRecommendation)
    (hz : z ∈ insertByProbDesc x l) : z = x ∨ z ∈ l := by
  induction l with
  | nil => simpa [insertByProbDesc] using hz
  | cons y ys ih =>
    simp only [insertByProbDesc] at hz
    split at hz
    · rcases List.mem_cons.mp hz with h | h
      · exact Or.inl h
      · exact Or.inr h
    · rcases List.mem_cons.mp hz with h | h
      · exact Or.inr (by simp [h])
      · rcases ih h with h1 | h1
        · exact Or.inl h1
        · exact Or.inr (List.mem_cons_of_mem _ h1)

/-- Insertion preserves the descending-sorted property. -/
theorem insertByProbDesc_pairwise (x : MatchupRecommendation)
    (l : List MatchupRecommendation)
    (hl : l.Pairwise (fun a b => b.winProbability ≤ a.winProbability)) :
    (insertByProbDesc x l).Pairwise
      (fun a b => b.winProbability ≤ a.winProbability) := by
  induction l with
  | nil => simp [insertByProbDesc]
  | cons y ys ih =>
    rw [List.pairwise_cons] at hl
    obtain ⟨hy, hys⟩ := hl
    simp only [insertByProbDesc]
    split
    · next hcond =>
      rw [List.pairwise_cons]
      refine ⟨?_, ?_⟩
      · intro z hz
        rcases List.mem_cons.mp hz with h | h
        · subst h; exact hcond
        · exact le_trans (hy z h) hcond
      · rw [List.pairwise_cons]
        exact ⟨hy, hys⟩
    · next hcond =>
      rw [List.pairwise_cons]
      refine ⟨?_, ih hys⟩
      intro z hz
      rcases insertByProbDesc_mem x ys z hz with h | h
      · subst h; exact le_of_not_le hcond
      · exact hy z h

/-- Insertion prepends the new element to the filtered sublist of its own
key and leaves every other key class unchanged (elements passed over have
a strictly larger key). -/
theorem insertByProbDesc_filter (p : ℚ) (x : MatchupRecommendation)
    (l : List MatchupRecommendation) :
    (insertByProbDesc x l).filter (fun r => decide (r.winProbability = p)) =
      if x.winProbability = p then
        x :: l.filter (fun r => decide (r.winProbability = p))
      else l.filter (fun r => decide (r.winProbability = p)) := by
  induction l with
  | nil =>
    by_cases hx : x.winProbability = p <;>
      simp [insertByProbDesc, List.filter, hx]
  | cons y ys ih =>
    simp only [insertByProbDesc]
    split
    · next hcond =>
      by_cases hx : x.winProbability = p <;>
        simp [List.filter_cons, hx]
    · next hcond =>
      have hxy : x.winProbability < y.winProbability := lt_of_not_le hcond
      rw [List.filter_cons, ih]
      by_cases hx : x.winProbability = p
      · have hy : ¬(y.winProbability = p) := by
          rw [← hx]
          exact (ne_of_gt hxy)
        simp [hx, hy, List.filter_cons]
      · by_cases hyp : y.winProbability = p <;>
          simp [hx, hyp, List.filter_cons]

/-- The sort output is descending in winProbability. -/
theorem sortByProbDesc_pairwise (l : List MatchupRecommendation) :
    (sortByProbDesc l).Pairwise
      (fun a b => b.winProbability ≤ a.winProbability) := by
  induction l with
  | nil => simp [sortByProbDesc]
  | cons x xs ih => exact insertByProbDesc_pairwise x _ ih

/-- Stability: each winProbability class of the sort output equals the
class of the input, in input order. -/
theorem sortByProbDesc_filter (p : ℚ) (l : List MatchupRecommendation) :
    (sortByProbDesc l).filter (fun r => decide (r.winProbability = p)) =
      l.filter (fun r => decide (r.winProbability = p)) := by
  induction l with
  | nil => rfl
  | cons x xs ih =>
    simp only [sortByProbDesc]
    rw [insertByProbDesc_filter, ih, List.filter_cons]
    by_cases hx : x.winProbability = p <;> simp [hx]

/-- C6: getMatchupRecommendations is sorted in descending order of
winProbability and, within each equal-probability class, preserves the
order of the corresponding players in the input list (the unsorted list is
exactly the input players mapped through makeRecommendation). -/
theorem C6_rank_sorted_stable (availablePlayers : List MatchupInput)
    (opponent : OpponentInput) (headToHeadData : H2HMap)
    (gameNumber ourScore theirScore : Int) :
    (getMatchupRecommendations availablePlayers opponent headToHeadData
      gameNumber ourScore theirScore).Pairwise
        (fun a b => b.winProbability ≤ a.winProbability) ∧
    ∀ p : ℚ,
      (getMatchupRecommendations availablePlayers opponent headToHeadData
        gameNumber ourScore theirScore).filter
          (fun r => decide (r.winProbability = p)) =
      (availablePlayers.map (makeRecommendation opponent headToHeadData)).filter
        (fun r => decide (r.winProbability = p)) := by
  constructor
  · exact sortByProbDesc_pairwise _
  · intro p
    exact sortByProbDesc_filter p _

/-- C5 counterexample: a present player assigned to a slot whose result is
still pending is excluded by getAvailablePlayers, although no non-pending
slot holds that player, so the claimed characterisation fails at this
input. -/
theorem C5_counterexample :
    ¬ (playerA ∈ getAvailablePlayers [playerA] pendingAssignedMatch ↔
       (playerA ∈ [playerA] ∧
        ∀ g ∈ pendingAssignedMatch.games,
          g.result ≠ GameOutcome.pending → g.ourPlayerId ≠ some playerA.id)) := by
  intro hiff
  have hR : playerA ∈ [playerA] ∧
      ∀ g ∈ pendingAssignedMatch.games,
        g.result ≠ GameOutcome.pending → g.ourPlayerId ≠ some playerA.id := by
    refine ⟨List.mem_singleton_self _, ?_⟩
    intro g hg hres
    simp [pendingAssignedMatch] at hg
    subst hg
    simp at hres
  have hL := hiff.mpr hR
  simp [getAvailablePlayers, pendingAssignedMatch, playerA, List.filter,
    List.filterMap, List.contains] at hL

/-- C5 (amended): a player is returned by getAvailablePlayers exactly when
they are among the present players and no game slot at all (pending or
not) has them assigned as ourPlayerId. -/
theorem C5_available_iff (presentPlayers : List Player) (liveMatch : LiveMatch)
    (p : Player) :
    p ∈ getAvailablePlayers presentPlayers liveMatch ↔
      p ∈ presentPlayers ∧ ∀ g ∈ liveMatch.games, g.ourPlayerId ≠ some p.id := by
  unfold getAvailablePlayers
  simp [List.mem_filter, List.contains, List.elem_iff, List.mem_filterMap,
    Option.isSome_iff_exists]
  exact fun _ => ⟨fun h g hg hgp => h g hg p.id hgp hgp,
                  fun h g hg z hz hgp => h g hg hgp⟩

/-- A binding of mapSet is the new binding or a binding of the original
map. -/
theorem mapSet_mem (m : H2HMap) (k : String) (v : HeadToHead)
    (e : String × HeadToHead) (he : e ∈ mapSet m k v) :
    e = (k, v) ∨ e ∈ m := by
  unfold mapSet at he
  split at he
  · rw [List.mem_map] at he
    obtain ⟨e1, he1, heq⟩ := he
    by_cases hk : (e1.1 == k) = true
    · rw [if_pos hk] at heq
      exact Or.inl heq.symm
    · rw [if_neg hk] at heq
      subst heq
      exact Or.inr he1
  · rw [List.mem_append] at he
    rcases he with h | h
    · exact Or.inr h
    · rw [List.mem_singleton] at h
      exact Or.inl h

/-- A value found by mapGet is stored in the map. -/
theorem mapGet_mem (m : H2HMap) (k : String) (v : HeadToHead)
    (h : mapGet m k = some v) : ∃ k1, (k1, v) ∈ m := by
  unfold mapGet at h
  cases hf : m.find? (fun e => e.1 == k) with
  | none => rw [hf] at h; simp at h
  | some e =>
    rw [hf] at h
    simp at h
    subst h
    exact ⟨e.1, by simpa using List.mem_of_find?_eq_some hf⟩

/-- One game update preserves wins + losses = totalGames. -/
theorem h2hStep_inv (h : HeadToHead) (g : GameResultInput)
    (hh : h.wins + h.losses = h.totalGames) :
    (h2hStep h g).wins + (h2hStep h g).losses = (h2hStep h g).totalGames := by
  simp only [h2hStep]
  cases hw : g.won <;> simp [hw] <;> omega

/-- One iteration of the buildHeadToHeadRecords loop preserves the
invariant on every stored record. -/
theorem buildStep_inv (m : H2HMap) (game : GameResultInput)
    (hm : ∀ e ∈ m, e.2.wins + e.2.losses = e.2.totalGames) :
    ∀ e ∈ mapSet m (h2hKey game.playerId game.opponentId)
        (h2hStep ((mapGet m (h2hKey game.playerId game.opponentId)).getD
          (freshH2H game)) game),
      e.2.wins + e.2.losses = e.2.totalGames := by
  intro e he
  rcases mapSet_mem _ _ _ _ he with h | h
  · subst h
    apply h2hStep_inv
    cases hg : mapGet m (h2hKey game.playerId game.opponentId) with
    | none => simp [freshH2H]
    | some v =>
      simp only [Option.getD_some]
      obtain ⟨k1, hk1⟩ := mapGet_mem _ _ _ hg
      exact hm _ hk1
  · exact hm _ h

/-- The buildHeadToHeadRecords fold keeps the invariant from any starting
map. -/
theorem buildFold_inv (games : List GameResultInput) :
    ∀ m : H2HMap, (∀ e ∈ m, e.2.wins + e.2.losses = e.2.totalGames) →
      ∀ e ∈ games.foldl (fun m game =>
          let key := h2hKey game.playerId game.opponentId
          let h2h := (mapGet m key).getD (freshH2H game)
          mapSet m key (h2hStep h2h game)) m,
        e.2.wins + e.2.losses = e.2.totalGames := by
  induction games with
  | nil => intro m hm e he; exact hm e he
  | cons g gs ih =>
    intro m hm e he
    rw [List.foldl_cons] at he
    exact ih _ (buildStep_inv m g hm) e he

/-- One iteration of the sync-time accumulation preserves the invariant on
every stored record. -/
theorem syncStep_inv (m : H2HMap) (r : Int × MatchHistoryItem)
    (hm : ∀ e ∈ m, e.2.wins + e.2.losses = e.2.totalGames) :
    ∀ e ∈ syncH2HStep m r, e.2.wins + e.2.losses = e.2.totalGames := by
  intro e he
  simp only [syncH2HStep] at he
  split at he
  · next existing hex =>
    rcases mapSet_mem _ _ _ _ he with h | h
    · subst h
      obtain ⟨k1, hk1⟩ := mapGet_mem _ _ _ hex
      have hv : existing.wins + existing.losses = existing.totalGames :=
        hm _ hk1
      cases hwon : r.2.won <;> simp [hwon] <;> omega
    · exact hm _ h
  · next hex =>
    rcases mapSet_mem _ _ _ _ he with h | h
    · subst h
      cases hwon : r.2.won <;> simp [hwon]
    · exact hm _ h

/-- The sync accumulation fold keeps the invariant from any starting
map. -/
theorem syncFold_inv (records : List (Int × MatchHistoryItem)) :
    ∀ m : H2HMap, (∀ e ∈ m, e.2.wins + e.2.losses = e.2.totalGames) →
      ∀ e ∈ records.foldl syncH2HStep m,
        e.2.wins + e.2.losses = e.2.totalGames := by
  induction records with
  | nil => intro m hm e he; exact hm e he
  | cons r rs ih =>
    intro m hm e he
    rw [List.foldl_cons] at he
    exact ih _ (syncStep_inv m r hm) e he

/-- C9: every record produced by buildHeadToHeadRecords, and every record
produced by the sync-time accumulation, satisfies
wins + losses = totalGames. -/
theorem C9_h2h_invariant :
    (∀ gameResults : List GameResultInput,
      ∀ h ∈ buildHeadToHeadRecords gameResults,
        h.wins + h.losses = h.totalGames) ∧
    (∀ records : List (Int × MatchHistoryItem),
      ∀ e ∈ syncAccumulateH2H records,
        e.2.wins + e.2.losses = e.2.totalGames) := by
  constructor
  · intro gameResults h hh
    unfold buildHeadToHeadRecords at hh
    rw [List.mem_map] at hh
    obtain ⟨e, he, rfl⟩ := hh
    exact buildFold_inv gameResults [] (by simp) e he
  · intro records e he
    unfold syncAccumulateH2H at he
    exact syncFold_inv records [] (by simp) e he

/-- The record built from the single game of c9Games. -/
theorem c9Rec_mem : c9Rec ∈ buildHeadToHeadRecords c9Games := by
  simp [buildHeadToHeadRecords, c9Games, c9Rec, mapGet, mapSet, h2hStep,
    freshH2H, List.foldl, List.find?]

/-- The record accumulated from the single history item of
c9SyncRecords. -/
theorem c9SyncRec_mem : (h2hKey 1 2, c9SyncRec) ∈ syncAccumulateH2H c9SyncRecords := by
  simp [syncAccumulateH2H, syncH2HStep, c9SyncRecords, c9SyncRec, mapGet,
    mapSet, List.foldl, List.find?]

/-- C9 witness: the invariant at the concrete records built from one game
and one sync history item. -/
theorem C9_h2h_invariant_witness :
    c9Rec.wins + c9Rec.losses = c9Rec.totalGames ∧
    c9SyncRec.wins + c9SyncRec.losses = c9SyncRec.totalGames :=
  ⟨C9_h2h_invariant.1 c9Games c9Rec c9Rec_mem,
   C9_h2h_invariant.2 c9SyncRecords (h2hKey 1 2, c9SyncRec) c9SyncRec_mem⟩

/-- C1 failing input: the blind path of getThrowRecommendation with one
available player and no available opponents divides 0 by 0 (NaN, modelled
as none) and returns that non-finite value as the winProbability of the
recommendation, instead of a defined neutral value. -/
theorem C1_blind_path_nan :
    (getThrowRecommendation [⟨playerA, none, none⟩] [] [] emptyLiveMatch
      none).map (fun r => r.winProbability) = [none] := by
  simp [getThrowRecommendation, blindThrowRec, sortThrowByProbDesc,
    insertThrowByProbDesc, jsDiv, List.foldl]

/-- C4: analyzeThrowFirstAdvantage scores throwFirst as
0.6 * ourBestOpenerProb + 0.2 and defer as 0.4 * (1 - theirThreat) + 0.33
with theirThreat = 1 - theirBestOpenerProb (the returned fields are these
scores rounded to two decimals), recommends throw_first exactly when the
unrounded throw-first score strictly exceeds the unrounded defer score (a
tie yields defer), and in particular recommends throw_first when our best
opener averages 0.8 and theirs 0.3. -/
theorem C4_throw_first_formula (ourPlayers : List MatchupInput)
    (theirPlayers : List OpponentInput) (headToHeadData : H2HMap) :
    (analyzeThrowFirstAdvantage ourPlayers theirPlayers headToHeadData).throwFirstScore =
      round2 (0.6 * ourBestOpenerProbOf ourPlayers theirPlayers headToHeadData + 0.2) ∧
    (analyzeThrowFirstAdvantage ourPlayers theirPlayers headToHeadData).deferScore =
      round2 (0.4 * (1 - (1 - theirBestOpenerProbOf ourPlayers theirPlayers headToHeadData)) + 0.33) ∧
    ((analyzeThrowFirstAdvantage ourPlayers theirPlayers headToHeadData).recommendation =
        ThrowChoice.throw_first ↔
      0.6 * ourBestOpenerProbOf ourPlayers theirPlayers headToHeadData + 0.2 >
        0.4 * (1 - (1 - theirBestOpenerProbOf ourPlayers theirPlayers headToHeadData)) + 0.33) ∧
    (ourBestOpenerProbOf ourPlayers theirPlayers headToHeadData = 0.8 →
      theirBestOpenerProbOf ourPlayers theirPlayers headToHeadData = 0.3 →
      (analyzeThrowFirstAdvantage ourPlayers theirPlayers headToHeadData).recommendation =
        ThrowChoice.throw_first) := by
  have e1 : ourBestOpenerProbOf ourPlayers theirPlayers headToHeadData * 0.6 + 0.4 * 0.5 =
      0.6 * ourBestOpenerProbOf ourPlayers theirPlayers headToHeadData + 0.2 := by ring
  have e2 : (1 - (1 - theirBestOpenerProbOf ourPlayers theirPlayers headToHeadData)) * 0.4 + 0.55 * 0.6 =
      0.4 * (1 - (1 - theirBestOpenerProbOf ourPlayers theirPlayers headToHeadData)) + 0.33 := by ring
  have hts : (analyzeThrowFirstAdvantage ourPlayers theirPlayers headToHeadData).throwFirstScore =
      round2 (ourBestOpenerProbOf ourPlayers theirPlayers headToHeadData * 0.6 + 0.4 * 0.5) := rfl
  have hds : (analyzeThrowFirstAdvantage ourPlayers theirPlayers headToHeadData).deferScore =
      round2 ((1 - (1 - theirBestOpenerProbOf ourPlayers theirPlayers headToHeadData)) * 0.4 + 0.55 * 0.6) := rfl
  have hrec : (analyzeThrowFirstAdvantage ourPlayers theirPlayers headToHeadData).recommendation =
      if ourBestOpenerProbOf ourPlayers theirPlayers headToHeadData * 0.6 + 0.4 * 0.5 >
          (1 - (1 - theirBestOpenerProbOf ourPlayers theirPlayers headToHeadData)) * 0.4 + 0.55 * 0.6
      then ThrowChoice.throw_first else ThrowChoice.defer := rfl
  have hiff : (analyzeThrowFirstAdvantage ourPlayers theirPlayers headToHeadData).recommendation =
      ThrowChoice.throw_first ↔
      0.6 * ourBestOpenerProbOf ourPlayers theirPlayers headToHeadData + 0.2 >
        0.4 * (1 - (1 - theirBestOpenerProbOf ourPlayers theirPlayers headToHeadData)) + 0.33 := by
    rw [hrec]
    simp only [e1, e2]
    split_ifs with hc
    · exact iff_of_true rfl hc
    · exact iff_of_false (by decide) hc
  refine ⟨?_, ?_, hiff, ?_⟩
  · rw [hts, e1]
  · rw [hds, e2]
  · intro h8 h3
    rw [hiff, h8, h3]
    norm_num

set_option maxHeartbeats 4000000 in
/-- Our best opener in the concrete throw-first scenario averages exactly
0.8. -/
theorem c4p_eval : ourBestOpenerProbOf c4Ours c4Theirs c4Map = 0.8 := by
  have h12 : mapGet c4Map (h2hKey 1 2) = some h2hAB := rfl
  simp [ourBestOpenerProbOf, getBestOpener, openerStep, openerOppStep,
    c4Ours, c4Theirs, h12, List.foldl,
    calculateWinProbability, winPctFactor, h2hFactor, formFactor,
    ppmFactor, seasonWinRateOf, getBaseWinProbability, getPointsNeeded,
    getExpectedPPM, NINE_BALL_SKILL_LEVELS, List.find?, WEIGHTS,
    playerA, playerB, statsA, statsB, recentA, h2hAB]
  norm_num [round2, jsRound, max_def, min_def]

set_option maxHeartbeats 4000000 in
/-- Their best opener in the concrete throw-first scenario averages
exactly 0.3. -/
theorem c4q_eval : theirBestOpenerProbOf c4Ours c4Theirs c4Map = 0.3 := by
  have h21 : mapGet c4Map (h2hKey 2 1) = some h2hBA := rfl
  simp [theirBestOpenerProbOf, getBestOpener, openerStep, openerOppStep,
    toMatchupInput, toOpponentInput, c4Ours, c4Theirs, h21, List.foldl,
    calculateWinProbability, winPctFactor, h2hFactor, formFactor,
    ppmFactor, seasonWinRateOf, getBaseWinProbability, getPointsNeeded,
    getExpectedPPM, NINE_BALL_SKILL_LEVELS, List.find?, WEIGHTS,
    playerA, playerB, statsA, statsB, recentA, h2hBA]
  norm_num [round2, jsRound, max_def, min_def]

/-- C4 witness: the dominant-opener scenario (our opener averages 0.8,
theirs 0.3) yields the throw_first recommendation. -/
theorem C4_throw_first_formula_witness :
    (analyzeThrowFirstAdvantage c4Ours c4Theirs c4Map).recommendation =
      ThrowChoice.throw_first :=
  (C4_throw_first_formula c4Ours c4Theirs c4Map).2.2.2 c4p_eval c4q_eval
